import Mathlib

/-!
# Verification of the wildfire-prediction front end

Shallow embedding of the prediction core of `src/app.py` (Feature Vector
Builder, Preprocessing Pipeline, Predictor Adapter, Decision Rule) and of
the dataset plumbing of `src/app/pages/Data_Overview.py`.

Numeric values are modelled as exact rationals (`ℚ`).  The transcendental
`np.log1p` is kept abstract: the pipeline is parametrised by a function
`l : ℚ → ℚ` standing for `fun x => Real.log (1 + x)` on its domain, since
no claim depends on the numeric value of the logarithm.  Where the float
semantics of `np.log1p` matters (domain violation producing NaN), a second,
NaN-tracking variant of the pipeline is defined over `Option ℚ`, with
`none` standing for NaN.

The scaler, PCA and classifier are opaque pickled artifacts loaded at
start-up (`model.pkl`, `scaler.pkl`, `pca.pkl`, src/app.py lines 73-75);
their parameters are abstract arguments here, and the `transform`
capabilities they expose are modelled from the spec's description
(standardization `(x - mean_i) / scale_i`, linear projection).
-/

namespace Wildfire

/-- The fixed column order of the one-row DataFrame built by the Predict
button handler (src/app.py lines 136-139). -/
def featureNames : List String :=
  ["daynight_N", "lat", "lon", "fire_weather_index", "pressure_mean",
   "wind_direction_mean", "wind_direction_std", "solar_radiation_mean",
   "dewpoint_mean", "cloud_cover_mean", "evapotranspiration_total",
   "humidity_min", "temp_mean", "temp_range", "wind_speed_max"]

/-- The seven column names that receive `np.log1p`
(src/app.py lines 141-142, `log_cols`). -/
def log_cols : List String :=
  ["fire_weather_index", "wind_direction_std", "solar_radiation_mean",
   "evapotranspiration_total", "humidity_min", "temp_range", "wind_speed_max"]

/-- A one-row DataFrame: ordered (column name, value) pairs.  The value
type is a parameter so that the same column operations serve both the
exact model (`ℚ`) and the NaN-tracking model (`Option ℚ`). -/
abbrev Row (α : Type) := List (String × α)

/-- `data[c] = f(data[c])`: update the value of the column named `c`
by `f`, leaving all other columns untouched. -/
def setCol {α : Type} (c : String) (f : α → α) (r : Row α) : Row α :=
  r.map (fun p => if p.1 = c then (p.1, f p.2) else p)

/-- `data[log_cols] = np.log1p(data[log_cols])` (src/app.py line 144):
apply `f` to each column named in `cols`, in order. -/
def applyLogCols {α : Type} (f : α → α) (cols : List String) (r : Row α) :
    Row α :=
  cols.foldl (fun acc c => setCol c f acc) r

/-- The Feature Vector Builder
(src/app.py lines 132-139): `pd.DataFrame([[daynight_N, lat, ...]],
columns=[...])` pairs the 15 widget values with the 15 column names in the
fixed order. -/
def mkRow (daynight_N lat lon fire_weather_index pressure_mean
    wind_direction_mean wind_direction_std solar_radiation_mean
    dewpoint_mean cloud_cover_mean evapotranspiration_total
    humidity_min temp_mean temp_range wind_speed_max : ℚ) : Row ℚ :=
  featureNames.zip
    [daynight_N, lat, lon, fire_weather_index, pressure_mean,
     wind_direction_mean, wind_direction_std, solar_radiation_mean,
     dewpoint_mean, cloud_cover_mean, evapotranspiration_total,
     humidity_min, temp_mean, temp_range, wind_speed_max]

/-- Modelled from the spec: the pre-fit scaler's `transform` capability
(`scaler.pkl` is an opaque artifact; the spec gives
`(x - mean_i) / scale_i` per feature).  Standardize the value list
positionally against the stored per-feature means and scales. -/
def standardize (mean scale x : List ℚ) : List ℚ :=
  List.zipWith (fun a b => a / b) (List.zipWith (fun a b => a - b) x mean) scale

/-- Dot product of two rational lists (truncating to the shorter). -/
def dot (r x : List ℚ) : ℚ :=
  (List.zipWith (fun a b => a * b) r x).sum

/-- Modelled from the spec: the pre-fit dimensionality reducer's
`transform` capability (`pca.pkl` is an opaque artifact; the spec
describes "a pre-fit linear transform to a smaller dimension count fixed
by the loaded artifact").  Each row of `comps` is one projection
direction. -/
def project (comps : List (List ℚ)) (x : List ℚ) : List ℚ :=
  comps.map (fun r => dot r x)

/-- The Preprocessing Pipeline applied by the Predict button handler
(src/app.py lines 144-146):
`data[log_cols] = np.log1p(data[log_cols])`,
then `data = scaler.transform(data)` (which reads the values
positionally), then `data = pca.transform(data)`.
`l` is the abstract `log1p`, `mean`/`scale` the scaler parameters,
`comps` the projection rows. -/
def pipeline (l : ℚ → ℚ) (mean scale : List ℚ) (comps : List (List ℚ))
    (r : Row ℚ) : List ℚ :=
  project comps (standardize mean scale ((applyLogCols l log_cols r).map Prod.snd))

/-- The Decision Rule (src/app.py line 149): `pred = int(prob > 0.4)`. -/
def pred (prob : ℚ) : ℤ :=
  if prob > 2/5 then 1 else 0

/-- The Predictor Adapter (src/app.py line 148):
`prob = model.predict_proba(data)[0, 1]`.  `predictProba` is the opaque
classifier's batch probability output (one list of class probabilities per
input row); the adapter indexes row 0, column 1. -/
def probAdapter (predictProba : List (List ℚ) → List (List ℚ))
    (v : List ℚ) : ℚ :=
  ((predictProba [v]).getD 0 []).getD 1 0

/-- Float semantics of `np.log1p` with NaN tracking, `none` standing for
NaN.  For an argument strictly below -1 NumPy's `log1p` produces NaN (with
a RuntimeWarning) and execution continues; otherwise the finite value is
modelled by the abstract `l`.  NaN input propagates to NaN output.  (The
pole at exactly -1 yields -inf, which no claim touches; it is left to
`l`.) -/
def log1pF (l : ℚ → ℚ) (x : Option ℚ) : Option ℚ :=
  x.bind (fun v => if v < -1 then none else some (l v))

/-- The Feature Vector Builder output viewed in the NaN-tracking model:
all widget values are actual numbers, so every column starts out `some`. -/
def mkRowF (daynight_N lat lon fire_weather_index pressure_mean
    wind_direction_mean wind_direction_std solar_radiation_mean
    dewpoint_mean cloud_cover_mean evapotranspiration_total
    humidity_min temp_mean temp_range wind_speed_max : ℚ) : Row (Option ℚ) :=
  featureNames.zip
    [some daynight_N, some lat, some lon, some fire_weather_index,
     some pressure_mean, some wind_direction_mean, some wind_direction_std,
     some solar_radiation_mean, some dewpoint_mean, some cloud_cover_mean,
     some evapotranspiration_total, some humidity_min, some temp_mean,
     some temp_range, some wind_speed_max]

/-- Standardization in the NaN-tracking model: the scaler's parameters are
finite artifact constants, and `(x - mean_i) / scale_i` maps NaN to NaN. -/
def standardizeF (mean scale : List ℚ) (x : List (Option ℚ)) :
    List (Option ℚ) :=
  List.zipWith (fun o p => o.map (fun v => (v - p.1) / p.2)) x (mean.zip scale)

/-- NaN-propagating addition: the sum is NaN as soon as either side is. -/
def addOpt (o acc : Option ℚ) : Option ℚ :=
  o.bind (fun v => acc.map (fun w => v + w))

/-- Dot product in the NaN-tracking model: scaling a NaN coordinate by any
coefficient (even 0) gives NaN, and a NaN term poisons the sum, matching
IEEE float behaviour. -/
def dotF (r : List ℚ) (x : List (Option ℚ)) : Option ℚ :=
  (List.zipWith (fun o a => o.map (fun v => a * v)) x r).foldr addOpt (some 0)

/-- Projection in the NaN-tracking model. -/
def projectF (comps : List (List ℚ)) (x : List (Option ℚ)) : List (Option ℚ) :=
  comps.map (fun r => dotF r x)

/-- The Preprocessing Pipeline (src/app.py lines 144-146) in the
NaN-tracking model: same column plumbing as `pipeline`, with `np.log1p`'s
domain behaviour made explicit. -/
def pipelineF (l : ℚ → ℚ) (mean scale : List ℚ) (comps : List (List ℚ))
    (r : Row (Option ℚ)) : List (Option ℚ) :=
  projectF comps
    (standardizeF mean scale ((applyLogCols (log1pF l) log_cols r).map Prod.snd))

/-- The bounds configured on the input widgets (src/app.py lines 95-126):
the Time of Day selectbox offers exactly 0 and 1, and every
`st.number_input` call passes an explicit `min_value` and `max_value`,
listed here as (column, min, max) in widget order. -/
def widgetBounds : List (String × ℚ × ℚ) :=
  [("daynight_N", 0, 1), ("lat", -90, 90), ("lon", -180, 180),
   ("fire_weather_index", 0, 250), ("pressure_mean", 500, 1500),
   ("wind_direction_mean", 0, 359), ("wind_direction_std", 0, 359),
   ("solar_radiation_mean", 0, 500), ("dewpoint_mean", -60, 35),
   ("cloud_cover_mean", 0, 100), ("evapotranspiration_total", 0, 40),
   ("humidity_min", 0, 100), ("temp_mean", -50, 50),
   ("temp_range", 0, 100), ("wind_speed_max", 0, 200)]

/-- A full set of inputs is reachable through the user-facing surface when
every value respects its widget's configuration (src/app.py lines 95-126):
the selectbox yields 0 or 1, and each number input is clamped to its
declared [min_value, max_value] interval. -/
def ReachableInputs (daynight_N lat lon fire_weather_index pressure_mean
    wind_direction_mean wind_direction_std solar_radiation_mean
    dewpoint_mean cloud_cover_mean evapotranspiration_total
    humidity_min temp_mean temp_range wind_speed_max : ℚ) : Prop :=
  (daynight_N = 0 ∨ daynight_N = 1) ∧
  (-90 ≤ lat ∧ lat ≤ 90) ∧ (-180 ≤ lon ∧ lon ≤ 180) ∧
  (0 ≤ fire_weather_index ∧ fire_weather_index ≤ 250) ∧
  (500 ≤ pressure_mean ∧ pressure_mean ≤ 1500) ∧
  (0 ≤ wind_direction_mean ∧ wind_direction_mean ≤ 359) ∧
  (0 ≤ wind_direction_std ∧ wind_direction_std ≤ 359) ∧
  (0 ≤ solar_radiation_mean ∧ solar_radiation_mean ≤ 500) ∧
  (-60 ≤ dewpoint_mean ∧ dewpoint_mean ≤ 35) ∧
  (0 ≤ cloud_cover_mean ∧ cloud_cover_mean ≤ 100) ∧
  (0 ≤ evapotranspiration_total ∧ evapotranspiration_total ≤ 40) ∧
  (0 ≤ humidity_min ∧ humidity_min ≤ 100) ∧
  (-50 ≤ temp_mean ∧ temp_mean ≤ 50) ∧
  (0 ≤ temp_range ∧ temp_range ≤ 100) ∧
  (0 ≤ wind_speed_max ∧ wind_speed_max ≤ 200)

/-- Collapse a list of optional values, failing on the first absent one. -/
def sequenceOpt : List (Option ℚ) → Option (List ℚ)
  | [] => some []
  | o :: rest => o.bind (fun v => (sequenceOpt rest).map (fun vs => v :: vs))

/-- Modelled from the spec: construction of a Feature Record from the
input-collection layer.  In src/app.py the widgets always supply a value,
so no missing-field path exists in the source; the spec's builder contract
("Fails only if required fields are missing", with construction rejected
before the pipeline runs) is modelled by building the record from the 15
field slots, each possibly absent, and failing exactly when a slot is
empty. -/
def buildRecord (vals : List (Option ℚ)) : Option (Row ℚ) :=
  if vals.length = 15 then (sequenceOpt vals).map (fun vs => featureNames.zip vs)
  else none

/-- A full prediction request: Feature Record construction followed by the
Preprocessing Pipeline; the pipeline runs only on a successfully built
record. -/
def runRequest (l : ℚ → ℚ) (mean scale : List ℚ) (comps : List (List ℚ))
    (vals : List (Option ℚ)) : Option (List ℚ) :=
  (buildRecord vals).map (pipeline l mean scale comps)

/-- Modelled from the spec: the column header of `data/final_dataset.csv`
(the dataset file itself is not part of the repository).  Per the spec the
file has the 15 feature columns plus a binary target column; the rename at
src/app/pages/Data_Overview.py line 51, annotated `fix spelling error`,
records that the file spells its target column `occured`. -/
def datasetRawColumns : List String := featureNames ++ ["occured"]

/-- The dashboard's column rename
(src/app/pages/Data_Overview.py line 51): `occured` becomes `occurred`,
every other column name is kept. -/
def renameOccured (cols : List String) : List String :=
  cols.map (fun c => if c = "occured" then "occurred" else c)

/-- `target_col` (src/app/pages/Data_Overview.py line 138): the column the
class-balance computation reads. -/
def target_col : String := "occurred"

/-- The rename applied to one loaded row: keys are renamed, values kept. -/
def renameRow (row : Row ℚ) : Row ℚ :=
  row.map (fun p => (if p.1 = "occured" then "occurred" else p.1, p.2))

/-- Loading the dataset into the dashboard
(src/app/pages/Data_Overview.py lines 47-51): read the rows, then rename
the misspelled target column. -/
def loadData (table : List (Row ℚ)) : List (Row ℚ) :=
  table.map renameRow

/-- `df[c]`: the named column of a loaded table, one value per row that
has the column. -/
def getCol (c : String) (table : List (Row ℚ)) : List ℚ :=
  table.filterMap (fun row => row.lookup c)

/-- The class-balance computation
(src/app/pages/Data_Overview.py lines 138-151):
`df[target_col].value_counts()` tallies the 0/1 values of the target
column; the chart and `fire_pct` are derived from these two counts. -/
def classCounts (table : List (Row ℚ)) : ℕ × ℕ :=
  ((getCol target_col table).count 0, (getCol target_col table).count 1)

/-- Claim C1: the Decision Rule maps a probability `p` to label 1 exactly when
`p > 0.4` and to 0 otherwise; in particular 0.4 ↦ 0, 0 ↦ 0, 1 ↦ 1, and
the label depends on nothing but `p`. -/
theorem decision_rule_spec (p : ℚ) :
    (pred p = 1 ↔ 2/5 < p) ∧ (pred p = 0 ↔ p ≤ 2/5) ∧
    pred (2/5) = 0 ∧ pred 0 = 0 ∧ pred 1 = 1 := by
  unfold pred
  refine ⟨?_, ?_, by norm_num, by norm_num, by norm_num⟩
  · by_cases h : 2/5 < p <;> simp [h]
  · by_cases h : 2/5 < p
    · simp [h, not_le.mpr h]
    · simp [h, le_of_not_lt h]

/-- Claim C3: the Feature Vector Builder assembles the 15 scalar inputs
into an ordered vector in exactly the fixed order time-of-day flag,
latitude, longitude, fire weather index, pressure, wind direction mean,
wind direction std, solar radiation, dewpoint, cloud cover,
evapotranspiration, humidity minimum, temperature mean, temperature range,
wind speed max, applying no transformation and no defaulting: each column
carries the caller's value unchanged. -/
theorem builder_fixed_order (daynight_N lat lon fire_weather_index
    pressure_mean wind_direction_mean wind_direction_std
    solar_radiation_mean dewpoint_mean cloud_cover_mean
    evapotranspiration_total humidity_min temp_mean temp_range
    wind_speed_max : ℚ) :
    mkRow daynight_N lat lon fire_weather_index pressure_mean
        wind_direction_mean wind_direction_std solar_radiation_mean
        dewpoint_mean cloud_cover_mean evapotranspiration_total
        humidity_min temp_mean temp_range wind_speed_max =
      [("daynight_N", daynight_N), ("lat", lat), ("lon", lon),
       ("fire_weather_index", fire_weather_index),
       ("pressure_mean", pressure_mean),
       ("wind_direction_mean", wind_direction_mean),
       ("wind_direction_std", wind_direction_std),
       ("solar_radiation_mean", solar_radiation_mean),
       ("dewpoint_mean", dewpoint_mean), ("cloud_cover_mean", cloud_cover_mean),
       ("evapotranspiration_total", evapotranspiration_total),
       ("humidity_min", humidity_min), ("temp_mean", temp_mean),
       ("temp_range", temp_range), ("wind_speed_max", wind_speed_max)] := rfl

/-- Claim C2: on every Feature Record the Preprocessing Pipeline applies
`log1p` to exactly the seven fields fire weather index, wind direction
std, solar radiation, evapotranspiration, humidity min, temperature range
and wind speed max (the other eight fields pass through that step
unchanged), then standardizes all 15 values with the pre-fit scaler, then
applies the pre-fit linear projection, in that order. -/
theorem pipeline_stage_order (l : ℚ → ℚ) (mean scale : List ℚ)
    (comps : List (List ℚ)) (daynight_N lat lon fire_weather_index
    pressure_mean wind_direction_mean wind_direction_std
    solar_radiation_mean dewpoint_mean cloud_cover_mean
    evapotranspiration_total humidity_min temp_mean temp_range
    wind_speed_max : ℚ) :
    pipeline l mean scale comps
        (mkRow daynight_N lat lon fire_weather_index pressure_mean
          wind_direction_mean wind_direction_std solar_radiation_mean
          dewpoint_mean cloud_cover_mean evapotranspiration_total
          humidity_min temp_mean temp_range wind_speed_max) =
      project comps (standardize mean scale
        [daynight_N, lat, lon, l fire_weather_index, pressure_mean,
         wind_direction_mean, l wind_direction_std, l solar_radiation_mean,
         dewpoint_mean, cloud_cover_mean, l evapotranspiration_total,
         l humidity_min, temp_mean, l temp_range, l wind_speed_max]) := rfl

/-- Claim C4: the Preprocessing Pipeline is a deterministic function of
its input and the loaded artifact parameters: identical inputs under the
same artifacts yield identical Transformed Vectors, with no hidden state
or randomness (the embedding is a pure function). -/
theorem pipeline_deterministic (l : ℚ → ℚ) (mean scale : List ℚ)
    (comps : List (List ℚ)) (r r' : Row ℚ) (h : r = r') :
    pipeline l mean scale comps r = pipeline l mean scale comps r' :=
  congrArg (pipeline l mean scale comps) h

/-- Witness for C4 at a concrete record and concrete artifacts. -/
theorem pipeline_deterministic_witness :
    pipeline (fun x => x) [] [] []
        (mkRow 0 0 0 0 1013 0 0 0 0 0 0 0 0 0 0) =
      pipeline (fun x => x) [] [] []
        (mkRow 0 0 0 0 1013 0 0 0 0 0 0 0 0 0 0) :=
  pipeline_deterministic (fun x => x) [] [] [] _ _ rfl

/-- Claim C6: the Predictor Adapter returns exactly entry [0, 1] of the
classifier's binary-class probability output — the positive-class
probability — performing no other computation on the classifier's
result. -/
theorem adapter_extracts_positive_class
    (f : List (List ℚ) → List (List ℚ)) (v : List ℚ) (p0 p1 : ℚ)
    (h : f [v] = [[p0, p1]]) : probAdapter f v = p1 := by
  unfold probAdapter
  rw [h]
  rfl

/-- Witness for C6: a classifier answering [1/4, 3/4] yields 3/4. -/
theorem adapter_extracts_positive_class_witness :
    probAdapter (fun _ => [[1/4, 3/4]]) [0] = 3/4 :=
  adapter_extracts_positive_class (fun _ => [[1/4, 3/4]]) [0] (1/4) (3/4) rfl

/-- Standardizing the mean vector itself yields all zeros, for stored
parameter lists of any (possibly unequal) lengths. -/
theorem standardize_self_eq_zero (mean scale : List ℚ) :
    standardize mean scale mean =
      List.replicate (min mean.length scale.length) 0 := by
  induction mean generalizing scale with
  | nil => simp [standardize]
  | cons m ms ih =>
    cases scale with
    | nil => simp [standardize]
    | cons s ss =>
      show ((m - m) / s) :: standardize ms ss ms = _
      rw [ih ss]
      simp [List.replicate, Nat.succ_min_succ]

/-- Claim C7: if every component of the (post-log1p) 15-dimensional
vector equals the scaler's stored mean for that component, the
standardized output is the zero vector. -/
theorem standardize_at_mean (mean scale x : List ℚ)
    (hm : mean.length = 15) (hs : scale.length = 15) (hx : x = mean) :
    standardize mean scale x = List.replicate 15 0 := by
  rw [hx, standardize_self_eq_zero, hm, hs]
  rfl

/-- Witness for C7 at concrete 15-element parameter vectors. -/
theorem standardize_at_mean_witness :
    standardize (List.replicate 15 (3 : ℚ)) (List.replicate 15 2)
        (List.replicate 15 3) = List.replicate 15 0 :=
  standardize_at_mean (List.replicate 15 3) (List.replicate 15 2)
    (List.replicate 15 3) (by simp) (by simp) rfl

/-- Sequencing a list of optional values fails exactly when a value is
absent. -/
theorem sequenceOpt_eq_none (vals : List (Option ℚ)) :
    sequenceOpt vals = none ↔ none ∈ vals := by
  induction vals with
  | nil => simp [sequenceOpt]
  | cons o rest ih =>
    cases o with
    | none => simp [sequenceOpt]
    | some v => simp [sequenceOpt, Option.map_eq_none', ih]

/-- Claim C9: with all 15 field slots presented, Feature Record
construction fails exactly when one of the required fields is missing, and
on a failed construction the Preprocessing Pipeline is never invoked (the
request short-circuits to failure). -/
theorem missing_field_rejected (l : ℚ → ℚ) (mean scale : List ℚ)
    (comps : List (List ℚ)) (vals : List (Option ℚ))
    (hlen : vals.length = 15) :
    (buildRecord vals = none ↔ none ∈ vals) ∧
    (buildRecord vals = none → runRequest l mean scale comps vals = none) := by
  constructor
  · unfold buildRecord
    rw [if_pos hlen]
    rw [Option.map_eq_none']
    exact sequenceOpt_eq_none vals
  · intro h
    unfold runRequest
    rw [h]
    rfl

/-- Witness for C9: fifteen slots with the last field absent. -/
theorem missing_field_rejected_witness :
    (buildRecord
        [some 0, some 0, some 0, some 0, some 1013, some 0, some 0, some 0,
         some 0, some 0, some 0, some 0, some 0, some 0, none] = none ↔
      none ∈
        ([some 0, some 0, some 0, some 0, some 1013, some 0, some 0, some 0,
          some 0, some 0, some 0, some 0, some 0, some 0, none] :
          List (Option ℚ))) ∧
    (buildRecord
        [some 0, some 0, some 0, some 0, some 1013, some 0, some 0, some 0,
         some 0, some 0, some 0, some 0, some 0, some 0, none] = none →
      runRequest (fun x => x) [] [] []
        [some 0, some 0, some 0, some 0, some 1013, some 0, some 0, some 0,
         some 0, some 0, some 0, some 0, some 0, some 0, none] = none) :=
  missing_field_rejected (fun x => x) [] [] []
    [some 0, some 0, some 0, some 0, some 1013, some 0, some 0, some 0,
     some 0, some 0, some 0, some 0, some 0, some 0, none] (by rfl)

/-- Computation of the NaN-tracking log1p step on a built record: exactly
the seven log columns (positions 3, 6, 7, 10, 11, 13, 14) pass through
`log1pF`; the other eight values are untouched. -/
theorem applyLogColsF_eval (l : ℚ → ℚ)
    (d0 d1 d2 d3 d4 d5 d6 d7 d8 d9 d10 d11 d12 d13 d14 : ℚ) :
    (applyLogCols (log1pF l) log_cols
        (mkRowF d0 d1 d2 d3 d4 d5 d6 d7 d8 d9 d10 d11 d12 d13 d14)).map
        Prod.snd =
      [some d0, some d1, some d2, log1pF l (some d3), some d4, some d5,
       log1pF l (some d6), log1pF l (some d7), some d8, some d9,
       log1pF l (some d10), log1pF l (some d11), some d12,
       log1pF l (some d13), log1pF l (some d14)] := rfl

/-- An absent value among the first `ps.length` entries survives a mapped
zip: the combining function sends NaN to NaN pointwise. -/
theorem none_mem_zipWith_map {α : Type} (g : α → ℚ → ℚ) :
    ∀ (x : List (Option ℚ)) (ps : List α), none ∈ x → x.length ≤ ps.length →
      none ∈ List.zipWith (fun o p => Option.map (g p) o) x ps := by
  intro x
  induction x with
  | nil => intro ps h _; simp at h
  | cons o xs ih =>
    intro ps hmem hlen
    cases ps with
    | nil => simp at hlen
    | cons p qs =>
      cases o with
      | none => simp [List.zipWith_cons_cons]
      | some v =>
        have hx : none ∈ xs := by
          rcases List.mem_cons.mp hmem with h | h
          · exact absurd h (by simp)
          · exact h
        rw [List.zipWith_cons_cons]
        exact List.mem_cons.mpr
          (Or.inr (ih qs hx (Nat.le_of_succ_le_succ hlen)))

/-- A NaN term poisons the whole NaN-tracking sum. -/
theorem addOpt_foldr_none :
    ∀ (xs : List (Option ℚ)), none ∈ xs → xs.foldr addOpt (some 0) = none := by
  intro xs
  induction xs with
  | nil => intro h; simp at h
  | cons o ys ih =>
    intro h
    rw [List.foldr_cons]
    rcases List.mem_cons.mp h with h | h
    · rw [← h]
      rfl
    · rw [ih h]
      cases o <;> rfl

/-- A NaN coordinate among the first `r.length` entries makes the whole
NaN-tracking dot product NaN. -/
theorem dotF_none (r : List ℚ) (x : List (Option ℚ)) (hx : none ∈ x)
    (hl : x.length ≤ r.length) : dotF r x = none := by
  unfold dotF
  exact addOpt_foldr_none _ (none_mem_zipWith_map (fun a v => a * v) x r hx hl)

/-- A NaN coordinate among the first `min mean.length scale.length`
entries survives standardization. -/
theorem standardizeF_none (mean scale : List ℚ) (x : List (Option ℚ))
    (hx : none ∈ x) (hl : x.length ≤ (mean.zip scale).length) :
    none ∈ standardizeF mean scale x := by
  unfold standardizeF
  exact none_mem_zipWith_map (fun p v => (v - p.1) / p.2) x (mean.zip scale)
    hx hl

/-- Counterexample to C5 as stated: with fire weather index -2 (below -1),
otherwise zero inputs and concrete artifacts, the Preprocessing Pipeline
does not reject the request — it produces a Transformed Vector containing
NaN. -/
theorem log1p_no_reject_counterexample :
    (-2 : ℚ) < -1 ∧
    none ∈ pipelineF (fun x => x) (List.replicate 15 0) (List.replicate 15 1)
        [List.replicate 15 1] (mkRowF 0 0 0 (-2) 0 0 0 0 0 0 0 0 0 0 0) := by
  refine ⟨by norm_num, ?_⟩
  have hnan : log1pF (fun x => x) (some (-2 : ℚ)) = none := by
    norm_num [log1pF]
  have hstd : none ∈ standardizeF (List.replicate 15 0) (List.replicate 15 1)
      ((applyLogCols (log1pF (fun x => x)) log_cols
        (mkRowF 0 0 0 (-2) 0 0 0 0 0 0 0 0 0 0 0)).map Prod.snd) := by
    apply standardizeF_none
    · rw [applyLogColsF_eval]
      simp [hnan]
    · rw [applyLogColsF_eval]
      simp
  show none ∈ projectF _ _
  unfold projectF
  refine List.mem_cons.mpr (Or.inl ?_)
  refine (dotF_none _ _ hstd ?_).symm
  unfold standardizeF
  rw [List.length_zipWith, applyLogColsF_eval]
  simp

/-- Claim C5 (amended): when one of the seven log1p-designated fields is
strictly below -1, the Preprocessing Pipeline does not reject the
request: `np.log1p` silently yields NaN for that field, the NaN survives
standardization, and every component of the projected Transformed Vector
is NaN.  (Arguments d0..d14 are the 15 fields in builder order; the log
fields are d3, d6, d7, d10, d11, d13, d14.) -/
theorem log1p_domain_violation_nan (l : ℚ → ℚ) (mean scale : List ℚ)
    (comps : List (List ℚ))
    (d0 d1 d2 d3 d4 d5 d6 d7 d8 d9 d10 d11 d12 d13 d14 : ℚ)
    (hm : mean.length = 15) (hs : scale.length = 15)
    (hc : ∀ row ∈ comps, row.length = 15)
    (hviol : d3 < -1 ∨ d6 < -1 ∨ d7 < -1 ∨ d10 < -1 ∨ d11 < -1 ∨
      d13 < -1 ∨ d14 < -1) :
    none ∈ standardizeF mean scale
        ((applyLogCols (log1pF l) log_cols
          (mkRowF d0 d1 d2 d3 d4 d5 d6 d7 d8 d9 d10 d11 d12 d13 d14)).map
          Prod.snd) ∧
    ∀ y ∈ pipelineF l mean scale comps
        (mkRowF d0 d1 d2 d3 d4 d5 d6 d7 d8 d9 d10 d11 d12 d13 d14),
      y = none := by
  have hmem : none ∈ (applyLogCols (log1pF l) log_cols
      (mkRowF d0 d1 d2 d3 d4 d5 d6 d7 d8 d9 d10 d11 d12 d13 d14)).map
      Prod.snd := by
    rw [applyLogColsF_eval]
    rcases hviol with h | h | h | h | h | h | h <;> simp [log1pF, h]
  have hstd : none ∈ standardizeF mean scale
      ((applyLogCols (log1pF l) log_cols
        (mkRowF d0 d1 d2 d3 d4 d5 d6 d7 d8 d9 d10 d11 d12 d13 d14)).map
        Prod.snd) := by
    apply standardizeF_none _ _ _ hmem
    rw [applyLogColsF_eval, List.length_zip, hm, hs]
    simp
  refine ⟨hstd, ?_⟩
  intro y hy
  unfold pipelineF projectF at hy
  rcases List.mem_map.mp hy with ⟨row, hrow, hdot⟩
  rw [← hdot]
  apply dotF_none _ _ hstd
  unfold standardizeF
  rw [List.length_zipWith, applyLogColsF_eval, List.length_zip, hm, hs,
    hc row hrow]
  simp

/-- Witness for the amended C5 at fire weather index -2 and concrete
artifacts. -/
theorem log1p_domain_violation_nan_witness :
    none ∈ standardizeF (List.replicate 15 0) (List.replicate 15 1)
        ((applyLogCols (log1pF (fun x => x)) log_cols
          (mkRowF 0 0 0 (-2) 0 0 0 0 0 0 0 0 0 0 0)).map Prod.snd) ∧
    ∀ y ∈ pipelineF (fun x => x) (List.replicate 15 0) (List.replicate 15 1)
        [List.replicate 15 1] (mkRowF 0 0 0 (-2) 0 0 0 0 0 0 0 0 0 0 0),
      y = none :=
  log1p_domain_violation_nan (fun x => x) (List.replicate 15 0)
    (List.replicate 15 1) [List.replicate 15 1]
    0 0 0 (-2) 0 0 0 0 0 0 0 0 0 0 0 (by simp) (by simp)
    (by simp) (Or.inl (by norm_num))

/-- Claim C10: each of the seven log1p-designated fields is collected by a
widget whose configured minimum is 0, so on every input reachable through
the user-facing surface the argument of `log1p` is at least 0, the
domain-violation branch (argument below -1) is unreachable, and the log1p
step of the pipeline produces no NaN: every entry of the post-log1p
vector is a present value. -/
theorem ui_bounds_make_log1p_safe (l : ℚ → ℚ) (daynight_N lat lon
    fire_weather_index pressure_mean wind_direction_mean wind_direction_std
    solar_radiation_mean dewpoint_mean cloud_cover_mean
    evapotranspiration_total humidity_min temp_mean temp_range
    wind_speed_max : ℚ)
    (h : ReachableInputs daynight_N lat lon fire_weather_index pressure_mean
      wind_direction_mean wind_direction_std solar_radiation_mean
      dewpoint_mean cloud_cover_mean evapotranspiration_total humidity_min
      temp_mean temp_range wind_speed_max) :
    (∀ c ∈ log_cols, (widgetBounds.lookup c).map Prod.fst = some 0) ∧
    (0 ≤ fire_weather_index ∧ 0 ≤ wind_direction_std ∧
     0 ≤ solar_radiation_mean ∧ 0 ≤ evapotranspiration_total ∧
     0 ≤ humidity_min ∧ 0 ≤ temp_range ∧ 0 ≤ wind_speed_max) ∧
    (applyLogCols (log1pF l) log_cols
        (mkRowF daynight_N lat lon fire_weather_index pressure_mean
          wind_direction_mean wind_direction_std solar_radiation_mean
          dewpoint_mean cloud_cover_mean evapotranspiration_total
          humidity_min temp_mean temp_range wind_speed_max)).map Prod.snd =
      [some daynight_N, some lat, some lon, some (l fire_weather_index),
       some pressure_mean, some wind_direction_mean,
       some (l wind_direction_std), some (l solar_radiation_mean),
       some dewpoint_mean, some cloud_cover_mean,
       some (l evapotranspiration_total), some (l humidity_min),
       some temp_mean, some (l temp_range), some (l wind_speed_max)] := by
  obtain ⟨-, -, -, ⟨hfwi, -⟩, -, -, ⟨hwds, -⟩, ⟨hsol, -⟩, -, -, ⟨hevap, -⟩,
    ⟨hhum, -⟩, -, ⟨htr, -⟩, ⟨hws, -⟩⟩ := h
  refine ⟨by decide, ⟨hfwi, hwds, hsol, hevap, hhum, htr, hws⟩, ?_⟩
  rw [applyLogColsF_eval]
  simp only [log1pF, Option.some_bind]
  rw [if_neg (by linarith), if_neg (by linarith), if_neg (by linarith),
    if_neg (by linarith), if_neg (by linarith), if_neg (by linarith),
    if_neg (by linarith)]

/-- Witness for C10 at the widgets' default values. -/
theorem ui_bounds_make_log1p_safe_witness :
    (∀ c ∈ log_cols, (widgetBounds.lookup c).map Prod.fst = some 0) ∧
    (0 ≤ (0 : ℚ) ∧ 0 ≤ (0 : ℚ) ∧ 0 ≤ (0 : ℚ) ∧ 0 ≤ (0 : ℚ) ∧ 0 ≤ (0 : ℚ) ∧
     0 ≤ (0 : ℚ) ∧ 0 ≤ (0 : ℚ)) ∧
    (applyLogCols (log1pF (fun x => x)) log_cols
        (mkRowF 0 0 0 0 1013 0 0 0 0 0 0 0 0 0 0)).map Prod.snd =
      [some 0, some 0, some 0, some ((fun x => (x : ℚ)) 0), some 1013,
       some 0, some ((fun x => (x : ℚ)) 0), some ((fun x => (x : ℚ)) 0),
       some 0, some 0, some ((fun x => (x : ℚ)) 0),
       some ((fun x => (x : ℚ)) 0), some 0, some ((fun x => (x : ℚ)) 0),
       some ((fun x => (x : ℚ)) 0)] :=
  ui_bounds_make_log1p_safe (fun x => x) 0 0 0 0 1013 0 0 0 0 0 0 0 0 0 0
    ⟨Or.inl rfl, by norm_num, by norm_num, by norm_num, by norm_num,
     by norm_num, by norm_num, by norm_num, by norm_num, by norm_num,
     by norm_num, by norm_num, by norm_num, by norm_num, by norm_num⟩

/-- On a row that carries no `occurred` column of its own, looking up
`occurred` after the rename finds exactly the row's `occured` value. -/
theorem renameRow_lookup : ∀ (row : Row ℚ),
    row.lookup "occurred" = none →
    (renameRow row).lookup "occurred" = row.lookup "occured" := by
  intro row
  induction row with
  | nil => intro _; rfl
  | cons p rest ih =>
    intro h
    obtain ⟨k, v⟩ := p
    by_cases hk : k = "occured"
    · subst hk
      simp [renameRow, List.lookup]
    · have hk2 : ("occurred" == k) = false := by
        by_cases hq : k = "occurred"
        · subst hq
          simp [List.lookup] at h
        · exact beq_eq_false_iff_ne.mpr (fun hq2 => hq hq2.symm)
      have hk3 : ("occured" == k) = false :=
        beq_eq_false_iff_ne.mpr (fun hq => hk hq.symm)
      have htail : rest.lookup "occurred" = none := by
        simpa [List.lookup, hk2] using h
      simp only [renameRow, List.map_cons]
      rw [if_neg hk]
      simp only [List.lookup, hk2, hk3]
      exact ih htail

/-- The column the class balance reads, extracted from the loaded (and
renamed) table, is exactly the file's misspelled `occured` column,
provided no raw row already carries an `occurred` column. -/
theorem getCol_loadData : ∀ (table : List (Row ℚ)),
    (∀ row ∈ table, row.lookup "occurred" = none) →
    getCol "occurred" (loadData table) = getCol "occured" table := by
  intro table
  induction table with
  | nil => intro _; rfl
  | cons row rest ih =>
    intro hocc
    have h1 := hocc row (List.mem_cons_self row rest)
    have h2 : ∀ r ∈ rest, r.lookup "occurred" = none :=
      fun r hr => hocc r (List.mem_cons_of_mem row hr)
    show getCol "occurred" (renameRow row :: loadData rest) = _
    unfold getCol
    rw [List.filterMap_cons, List.filterMap_cons, renameRow_lookup row h1]
    cases hcase : row.lookup "occured" with
    | none => exact ih h2
    | some v => exact congrArg (fun t => v :: t) (ih h2)

/-- Counterexample to C8 as stated: the dataset file's header has no
column named `occurred` — its target column is spelled `occured`, as
recorded by the dashboard's spelling-fix rename. -/
theorem dataset_occurred_counterexample :
    target_col ∉ datasetRawColumns ∧ "occured" ∈ datasetRawColumns := by
  constructor
  · decide
  · decide

/-- Claim C8 (amended): the dataset file's target column is spelled
`occured`; the dashboard renames it to `occurred` on load, after which
`occurred` is among the columns, and the class-balance computation reads
exactly that renamed column — its two tallies are the 0- and 1-counts of
the file's `occured` values. -/
theorem dataset_target_amended (table : List (Row ℚ))
    (hocc : ∀ row ∈ table, row.lookup "occurred" = none) :
    target_col ∉ datasetRawColumns ∧
    target_col ∈ renameOccured datasetRawColumns ∧
    getCol target_col (loadData table) = getCol "occured" table ∧
    classCounts (loadData table) =
      ((getCol "occured" table).count 0, (getCol "occured" table).count 1) := by
  refine ⟨by decide, by decide, getCol_loadData table hocc, ?_⟩
  unfold classCounts
  rw [show target_col = "occurred" from rfl, getCol_loadData table hocc]

/-- Witness for the amended C8 on a concrete three-row table. -/
theorem dataset_target_amended_witness :
    target_col ∉ datasetRawColumns ∧
    target_col ∈ renameOccured datasetRawColumns ∧
    getCol target_col
        (loadData [[("occured", 1)], [("occured", 0)], [("occured", 1)]]) =
      getCol "occured" [[("occured", 1)], [("occured", 0)], [("occured", 1)]] ∧
    classCounts
        (loadData [[("occured", 1)], [("occured", 0)], [("occured", 1)]]) =
      ((getCol "occured"
          [[("occured", 1)], [("occured", 0)], [("occured", 1)]]).count 0,
       (getCol "occured"
          [[("occured", 1)], [("occured", 0)], [("occured", 1)]]).count 1) :=
  dataset_target_amended [[("occured", 1)], [("occured", 0)], [("occured", 1)]]
    (by decide)

end Wildfire
